import Mathlib

/-!
Verification of the INSPIRE inspection app's Sampling & Scoring Engine.

The embedding follows the two source files:
* Part000 - the main inspection component (sample-size table, defect-count
  ledger, note ledger, and the score computation with sampled-to-population
  extrapolation and multi-trigger pass/fail policy).
* IndexTsx - the second variant (its own sample-size tables, the App score
  computation, and the reacScore computation).
JavaScript numbers that hold integer counts and unit totals are modelled as
Int; point weights and scores are modelled as rationals, since every weight
in the catalog is a finite decimal and the computation is +, -, *, /, max.
A JavaScript object keyed by strings is modelled as a function into Option.
-/

namespace Part000

/-- Severity tier of a defect list inside an item (the three keys of the
defects object in the catalog). -/
inductive Severity where
  | low
  | moderate
  | severe
  deriving DecidableEq, Repr

/-- A defect entry of the catalog: description, point weight, optional
life-threatening flag (lt defaults to false when absent in the source). -/
structure Defect where
  description : String
  weight : ℚ
  lt : Bool := false
  deriving DecidableEq, Repr

/-- A catalog item. The source stores the per-severity defect lists in an
object whose keys may be absent; an absent tier behaves exactly like an
empty list under indexed lookup, so each tier is a (possibly empty) list. -/
structure Item where
  name : String
  requirement : String
  education : String
  low : List Defect := []
  moderate : List Defect := []
  severe : List Defect := []
  deriving DecidableEq, Repr

/-- The defects list of an item at a given severity tier. -/
def Item.defectsAt (it : Item) : Severity → List Defect
  | Severity.low => it.low
  | Severity.moderate => it.moderate
  | Severity.severe => it.severe

/-- A catalog category: a name and its ordered items. -/
structure Category where
  category : String
  items : List Item
  deriving DecidableEq, Repr

/-- DEFECT_DATA: the outside (common-scope) and inside (unit-scope)
category lists. -/
structure DefectData where
  outside : List Category
  inside : List Category
  deriving DecidableEq, Repr

/-- First component of an observation key: the source string is either
'outside' or 'inside'; the scoring code tests equality with 'outside' and
treats everything else as inside. -/
inductive Location where
  | outside
  | inside
  deriving DecidableEq, Repr

/-- An observation key, the structured form of the source's
location-cat-item-severity-defect(-unit) string keys.  Inside keys carry a
trailing sampled-unit index; outside keys do not. -/
structure ObsKey where
  location : Location
  catIndex : Nat
  itemIndex : Nat
  severity : Severity
  defectIndex : Nat
  unitIndex : Option Nat := none
  deriving DecidableEq, Repr

/-- Resolution of an observation key against the catalog, following the
optional-chaining lookup in the score computation:
defectList[catIndex] then category.items[itemIndex] then
item.defects[severity][defectIndex].  Any out-of-range index yields none. -/
def resolveItemDefect (dd : DefectData) (k : ObsKey) : Option (Item × Defect) :=
  let defectList := match k.location with
    | Location.outside => dd.outside
    | Location.inside => dd.inside
  match defectList[k.catIndex]? with
  | none => none
  | some category =>
    match category.items[k.itemIndex]? with
    | none => none
    | some item =>
      match (item.defectsAt k.severity)[k.defectIndex]? with
      | none => none
      | some defect => some (item, defect)

/-- calculateSampleSize from the main inspection component: the step table
mapping total units to the number of units to sample. -/
def calculateSampleSize (numUnits : Int) : Int :=
  if numUnits ≤ 0 then 0
  else if numUnits = 1 then 1
  else if numUnits ≤ 10 then min numUnits 4
  else if numUnits ≤ 20 then 6
  else if numUnits ≤ 30 then 7
  else if numUnits ≤ 40 then 8
  else if numUnits ≤ 50 then 9
  else if numUnits ≤ 60 then 10
  else if numUnits ≤ 70 then 11
  else if numUnits ≤ 80 then 12
  else if numUnits ≤ 90 then 13
  else if numUnits ≤ 100 then 14
  else if numUnits ≤ 200 then 17
  else if numUnits ≤ 300 then 19
  else if numUnits ≤ 400 then 20
  else if numUnits ≤ 500 then 21
  else 23

/-- The life-threatening finding string pushed by the score computation:
item name, defect description, and the occurrence count. -/
def ltString (item : Item) (defect : Defect) (count : Int) : String :=
  item.name ++ ": " ++ defect.description ++ " (x" ++ toString count ++ ")"

/-- One iteration of the forEach over the defect-count entries in the score
computation.  The accumulator is (outsideWeight, insideWeight,
lifeThreateningDefects).  Entries with count 0 or below are skipped, as are
entries whose key does not resolve in the catalog; a resolving entry adds
weight times count to the accumulator of its location, and additionally
pushes a finding string when the defect is flagged life-threatening. -/
def scoreStep (dd : DefectData) (acc : ℚ × ℚ × List String) (e : ObsKey × Int) :
    ℚ × ℚ × List String :=
  if 0 < e.2 then
    match resolveItemDefect dd e.1 with
    | some p =>
      let totalWeight := p.2.weight * (e.2 : ℚ)
      let acc1 : ℚ × ℚ × List String :=
        if e.1.location = Location.outside then (acc.1 + totalWeight, acc.2.1, acc.2.2)
        else (acc.1, acc.2.1 + totalWeight, acc.2.2)
      if p.2.lt then (acc1.1, acc1.2.1, acc1.2.2 ++ [ltString p.1 p.2 e.2]) else acc1
    | none => acc
  else acc

/-- The full forEach of the score computation: fold scoreStep over the
defect-count entries starting from zero accumulators. -/
def scoreFold (dd : DefectData) (entries : List (ObsKey × Int)) : ℚ × ℚ × List String :=
  entries.foldl (scoreStep dd) (0, 0, [])

/-- outsideWeight accumulated by the score computation. -/
def outsideWeightOf (dd : DefectData) (entries : List (ObsKey × Int)) : ℚ :=
  (scoreFold dd entries).1

/-- insideWeight accumulated by the score computation. -/
def insideWeightOf (dd : DefectData) (entries : List (ObsKey × Int)) : ℚ :=
  (scoreFold dd entries).2.1

/-- lifeThreateningDefects list accumulated by the score computation. -/
def ltFindingsOf (dd : DefectData) (entries : List (ObsKey × Int)) : List String :=
  (scoreFold dd entries).2.2

/-- unitWeight of the score computation: insideWeight divided by the sample
size (defensively replaced by 1 when not positive) times the unit count
(defensively replaced by 1 when not positive). -/
def unitWeightOf (dd : DefectData) (entries : List (ObsKey × Int))
    (totalUnits sampleSize : Int) : ℚ :=
  (insideWeightOf dd entries / (if 0 < sampleSize then (sampleSize : ℚ) else 1)) *
    (if 0 < totalUnits then (totalUnits : ℚ) else 1)

/-- The record returned by the score computation.  The source formats the
three scores with toFixed for display; the full-precision rationals are kept
here. -/
structure ScoreResult where
  outsideScore : ℚ
  insideScore : ℚ
  finalScore : ℚ
  failing : Bool
  lifeThreateningDefects : List String
  deriving DecidableEq, Repr

/-- The score useMemo of the main inspection component: weight totals from
the defect-count entries, extrapolated unit weight, final score, and the
four-trigger failing flag. -/
def computeScore (dd : DefectData) (entries : List (ObsKey × Int))
    (totalUnits sampleSize : Int) : ScoreResult :=
  let outsideWeight := outsideWeightOf dd entries
  let unitWeight := unitWeightOf dd entries totalUnits sampleSize
  let lts := ltFindingsOf dd entries
  let totalDeductions := outsideWeight + unitWeight
  let finalScore := max 0 (100 - totalDeductions)
  { outsideScore := max 0 (100 - outsideWeight)
    insideScore := max 0 (100 - unitWeight)
    finalScore := finalScore
    failing := decide (finalScore < 60) || decide (30 ≤ unitWeight) ||
      decide (40 ≤ outsideWeight) || decide (0 < lts.length)
    lifeThreateningDefects := lts }

/-- A note attached to an observation key.  Blob and File payloads are
modelled as opaque string handles. -/
structure Note where
  text : String
  audio : Option String := none
  audioURL : Option String := none
  photo : Option String := none
  photoURL : Option String := none
  deriving DecidableEq, Repr

/-- updateDefectCount: the updater passed to setDefectCounts.  The previous
count (0 when the key is absent) plus the change, clamped at 0, is stored
under the key; all other keys keep their values. -/
def updateDefectCount (prev : ObsKey → Option Int) (key : ObsKey) (change : Int) :
    ObsKey → Option Int :=
  fun k => if k = key then some (max 0 ((prev key).getD 0 + change)) else prev k

/-- The object spread in updateNoteText: previous note fields are kept and
text is overwritten; a missing previous note yields a note with only text. -/
def mergeNoteText (old : Option Note) (text : String) : Note :=
  match old with
  | some n => { n with text := text }
  | none => { text := text }

/-- updateNoteText: the updater passed to setNotes.  The note under the key
gets its text replaced (other note fields preserved); all other keys keep
their values. -/
def updateNoteText (prev : ObsKey → Option Note) (key : ObsKey) (text : String) :
    ObsKey → Option Note :=
  fun k => if k = key then some (mergeNoteText (prev key) text) else prev k

/-- The two ledgers held in component state: defect counts and notes, both
objects keyed by observation-key strings. -/
structure LedgerState where
  defectCounts : ObsKey → Option Int
  notes : ObsKey → Option Note

/-- updateDefectCount acting on the whole component state: only the
defectCounts object is replaced. -/
def updateDefectCountState (s : LedgerState) (key : ObsKey) (change : Int) : LedgerState :=
  { s with defectCounts := updateDefectCount s.defectCounts key change }

/-- updateNoteText acting on the whole component state: only the notes
object is replaced. -/
def updateNoteTextState (s : LedgerState) (key : ObsKey) (text : String) : LedgerState :=
  { s with notes := updateNoteText s.notes key text }

end Part000

namespace IndexTsx

/-- calculateSampleSize from index.tsx: its own step table. -/
def calculateSampleSize (totalUnits : Int) : Int :=
  if totalUnits ≤ 0 then 0
  else if totalUnits = 1 then 1
  else if 2 ≤ totalUnits ∧ totalUnits ≤ 8 then 2
  else if 9 ≤ totalUnits ∧ totalUnits ≤ 15 then 3
  else if 16 ≤ totalUnits ∧ totalUnits ≤ 25 then 4
  else if 26 ≤ totalUnits ∧ totalUnits ≤ 40 then 5
  else if 41 ≤ totalUnits ∧ totalUnits ≤ 65 then 6
  else if 66 ≤ totalUnits ∧ totalUnits ≤ 90 then 7
  else if 91 ≤ totalUnits ∧ totalUnits ≤ 150 then 8
  else if 151 ≤ totalUnits ∧ totalUnits ≤ 280 then 10
  else if 281 ≤ totalUnits ∧ totalUnits ≤ 500 then 11
  else if 501 ≤ totalUnits ∧ totalUnits ≤ 1200 then 15
  else 19

/-- getSampleSize from the InspectionScreen variant in index.tsx: a third
step table, with no guard for non-positive inputs. -/
def getSampleSize (units : Int) : Int :=
  if units = 1 then 1
  else if units ≤ 2 then 2
  else if units ≤ 3 then 3
  else if units ≤ 4 then 4
  else if units ≤ 5 then 5
  else if units ≤ 7 then 6
  else if units ≤ 8 then 7
  else if units ≤ 10 then 8
  else if units ≤ 12 then 9
  else if units ≤ 14 then 10
  else if units ≤ 16 then 11
  else if units ≤ 18 then 12
  else if units ≤ 21 then 13
  else if units ≤ 24 then 14
  else if units ≤ 27 then 15
  else if units ≤ 30 then 16
  else if units ≤ 35 then 17
  else if units ≤ 39 then 18
  else if units ≤ 45 then 19
  else if units ≤ 51 then 20
  else if units ≤ 59 then 21
  else if units ≤ 67 then 22
  else if units ≤ 78 then 23
  else if units ≤ 92 then 24
  else if units ≤ 110 then 25
  else if units ≤ 120 then 26
  else if units ≤ 166 then 27
  else if units ≤ 214 then 28
  else if units ≤ 295 then 29
  else if units ≤ 455 then 30
  else if units ≤ 920 then 31
  else 32

/-- A defect value of the App component's inspection state in index.tsx. -/
structure AppDefect where
  count : Int
  weight : ℚ
  lt : Bool
  description : String
  name : String
  category : String
  deriving DecidableEq, Repr

/-- The record returned by the App score useMemo. -/
structure AppScore where
  numeric : ℚ
  grade : String
  lt : Nat
  pass : Bool
  deriving DecidableEq, Repr

/-- The App score useMemo in index.tsx: total deductions over all stored
defects, count of life-threatening defects with positive count, final score,
letter grade, and pass requiring score at least 60 and no life-threatening
findings. -/
def appScore (defects : List AppDefect) : AppScore :=
  let totalDeductions := defects.foldl (fun acc d => acc + (d.count : ℚ) * d.weight) 0
  let lifeThreateningDefects := (defects.filter (fun d => d.lt && decide (0 < d.count))).length
  let finalScore := max 0 (100 - totalDeductions)
  let letterGrade := if 90 ≤ finalScore then "A" else if 80 ≤ finalScore then "B"
    else if 70 ≤ finalScore then "C" else if 60 ≤ finalScore then "D" else "F"
  { numeric := finalScore
    grade := letterGrade
    lt := lifeThreateningDefects
    pass := decide (60 ≤ finalScore) && decide (lifeThreateningDefects = 0) }

/-- A logged defect of the InspectionScreen variant in index.tsx. -/
structure ReacDefect where
  weight : ℚ
  area : String
  deriving DecidableEq, Repr

/-- The record returned by the reacScore useMemo. -/
structure ReacScoreOut where
  reacScore : ℚ
  unitScore : ℚ
  deriving DecidableEq, Repr

/-- The reacScore useMemo of the InspectionScreen variant: total weight of
logged defects divided by the sample size when positive (deduction 0
otherwise), subtracted from 100 and clamped at 0; unitScore is the weight
total of unit-area defects. -/
def reacScoreCalc (loggedDefects : List ReacDefect) (sampleSize : Int) : ReacScoreOut :=
  let totalWeight := loggedDefects.foldl (fun sum d => sum + d.weight) 0
  let deduction := if 0 < sampleSize then totalWeight / (sampleSize : ℚ) else 0
  let unitWeight := (loggedDefects.filter (fun d => d.area = "unit")).foldl
    (fun sum d => sum + d.weight) 0
  { reacScore := max 0 (100 - deduction), unitScore := unitWeight }

end IndexTsx

namespace Spec

open Part000

/-- The weight a key contributes per occurrence: the weight of the defect
it resolves to, and 0 when it does not resolve (the source skips such
entries, which is weight 0). -/
def obsWeight (dd : DefectData) (k : ObsKey) : ℚ :=
  match resolveItemDefect dd k with
  | some p => p.2.weight
  | none => 0

/-- Modelled from the spec: commonDeductionPoints, the sum of count times
weight over common-scope (outside) observations. -/
def commonDeductionPoints (dd : DefectData) (entries : List (ObsKey × Int)) : ℚ :=
  (entries.map (fun e =>
    if e.1.location = Location.outside then obsWeight dd e.1 * (e.2 : ℚ) else 0)).sum

/-- Modelled from the spec: totalUnitDeductionPoints, the sum of count times
weight over unit-scope (inside) observations. -/
def totalUnitDeductionPoints (dd : DefectData) (entries : List (ObsKey × Int)) : ℚ :=
  (entries.map (fun e =>
    if e.1.location = Location.inside then obsWeight dd e.1 * (e.2 : ℚ) else 0)).sum

/-- Modelled from the spec: extrapolatedInteriorDeduction equals
totalUnitDeductionPoints divided by the sample size times the total unit
count. -/
def extrapolatedInteriorDeduction (dd : DefectData) (entries : List (ObsKey × Int))
    (totalUnits sampleSize : Int) : ℚ :=
  totalUnitDeductionPoints dd entries / (sampleSize : ℚ) * (totalUnits : ℚ)

end Spec

section Fixtures

open Part000

/-- The weight 2.50 used by Scenario B, in a kernel-reducible form. -/
def scenarioWeight : ℚ := mkRat 5 2

/-- A small concrete catalog for concrete evaluations: no outside
categories, one inside category with one item carrying a low-severity
defect of weight 2.50. -/
def scenarioCatalog : DefectData :=
  { outside := []
    inside := [{ category := "Unit Interior"
                 items := [{ name := "Electrical Outlet"
                             requirement := "Outlets must be intact."
                             education := "Damaged outlets are a shock hazard."
                             low := [{ description := "Cracked outlet cover",
                                       weight := scenarioWeight }] }] }] }

/-- The inside key of the single defect of scenarioCatalog, recorded in
sampled unit 1. -/
def scenarioKey : ObsKey :=
  { location := Location.inside, catIndex := 0, itemIndex := 0
    severity := Severity.low, defectIndex := 0, unitIndex := some 1 }

/-- A key that does not resolve in scenarioCatalog: its outside list is
empty, so category index 7 is out of range. -/
def danglingKey : ObsKey :=
  { location := Location.outside, catIndex := 7, itemIndex := 0
    severity := Severity.low, defectIndex := 0 }

/-- A life-threatening defect fixture of weight 2.50. -/
def scenarioLtDefect : Defect :=
  { description := "Exposed wiring", weight := scenarioWeight, lt := true }

/-- The item holding the life-threatening defect fixture. -/
def scenarioLtItem : Item :=
  { name := "Electrical Outlet"
    requirement := "Outlets must be intact."
    education := "Damaged outlets are a shock hazard."
    low := [scenarioLtDefect] }

/-- A catalog that flags the scenario defect as life-threatening. -/
def scenarioLtCatalog : DefectData :=
  { outside := []
    inside := [{ category := "Unit Interior", items := [scenarioLtItem] }] }

/-- An App-variant defect fixture with the lt flag and one occurrence. -/
def appLtDefect : IndexTsx.AppDefect :=
  { count := 1, weight := 1, lt := true, description := "Exposed wiring"
    name := "Electrical Outlet", category := "Unit Interior" }

/-- A ledger state with no counts and no notes. -/
def emptyLedger : LedgerState :=
  { defectCounts := fun _ => none, notes := fun _ => none }

/-- The rational value of the scenario weight. -/
lemma scenarioWeight_eq : scenarioWeight = 5 / 2 := by
  unfold scenarioWeight
  rw [Rat.mkRat_eq_divInt, Rat.divInt_eq_div]
  norm_num

end Fixtures

namespace Part000

lemma inside_ne_outside : Location.inside ≠ Location.outside := by decide

lemma outside_ne_inside : Location.outside ≠ Location.inside := by decide

/-- scoreStep only ever adds to the two weight accumulators and appends to
the finding list, so its action on any accumulator is its action on the zero
accumulator shifted by the input accumulator. -/
lemma scoreStep_shift (dd : DefectData) (p : ℚ × ℚ × List String) (e : ObsKey × Int) :
    scoreStep dd p e =
      (p.1 + (scoreStep dd (0, 0, []) e).1,
       p.2.1 + (scoreStep dd (0, 0, []) e).2.1,
       p.2.2 ++ (scoreStep dd (0, 0, []) e).2.2) := by
  unfold scoreStep
  by_cases h1 : 0 < e.2
  · simp only [if_pos h1]
    cases hr : resolveItemDefect dd e.1 with
    | none => simp
    | some q =>
      by_cases hloc : e.1.location = Location.outside <;> by_cases hlt : q.2.lt <;>
        simp [hloc, hlt]
  · simp [h1]

/-- The fold of scoreStep from any starting accumulator is the fold from the
zero accumulator shifted by the start. -/
lemma foldl_scoreStep_shift (dd : DefectData) (es : List (ObsKey × Int))
    (p : ℚ × ℚ × List String) :
    es.foldl (scoreStep dd) p =
      (p.1 + (es.foldl (scoreStep dd) (0, 0, [])).1,
       p.2.1 + (es.foldl (scoreStep dd) (0, 0, [])).2.1,
       p.2.2 ++ (es.foldl (scoreStep dd) (0, 0, [])).2.2) := by
  induction es generalizing p with
  | nil => simp
  | cons e es ih =>
    rw [List.foldl_cons, List.foldl_cons, ih (scoreStep dd p e),
      ih (scoreStep dd (0, 0, []) e), scoreStep_shift dd p e]
    simp [add_assoc, List.append_assoc]

/-- The accumulated triple over a cons decomposes per entry. -/
lemma scoreFold_cons (dd : DefectData) (e : ObsKey × Int) (es : List (ObsKey × Int)) :
    scoreFold dd (e :: es) =
      ((scoreStep dd (0, 0, []) e).1 + (scoreFold dd es).1,
       (scoreStep dd (0, 0, []) e).2.1 + (scoreFold dd es).2.1,
       (scoreStep dd (0, 0, []) e).2.2 ++ (scoreFold dd es).2.2) := by
  unfold scoreFold
  rw [List.foldl_cons, foldl_scoreStep_shift]

lemma outsideWeightOf_cons (dd : DefectData) (e : ObsKey × Int) (es : List (ObsKey × Int)) :
    outsideWeightOf dd (e :: es) = (scoreStep dd (0, 0, []) e).1 + outsideWeightOf dd es := by
  unfold outsideWeightOf
  rw [scoreFold_cons]

lemma insideWeightOf_cons (dd : DefectData) (e : ObsKey × Int) (es : List (ObsKey × Int)) :
    insideWeightOf dd (e :: es) = (scoreStep dd (0, 0, []) e).2.1 + insideWeightOf dd es := by
  unfold insideWeightOf
  rw [scoreFold_cons]

lemma ltFindingsOf_cons (dd : DefectData) (e : ObsKey × Int) (es : List (ObsKey × Int)) :
    ltFindingsOf dd (e :: es) = (scoreStep dd (0, 0, []) e).2.2 ++ ltFindingsOf dd es := by
  unfold ltFindingsOf
  rw [scoreFold_cons]

/-- A single entry with non-negative count contributes to outsideWeight
exactly its count times its resolved weight when its key is outside, and
nothing otherwise. -/
lemma scoreStep_fst (dd : DefectData) (e : ObsKey × Int) (h : 0 ≤ e.2) :
    (scoreStep dd (0, 0, []) e).1 =
      if e.1.location = Location.outside then Spec.obsWeight dd e.1 * (e.2 : ℚ) else 0 := by
  unfold scoreStep Spec.obsWeight
  by_cases h1 : 0 < e.2
  · simp only [if_pos h1]
    cases hr : resolveItemDefect dd e.1 with
    | none => simp [hr]
    | some q =>
      by_cases hloc : e.1.location = Location.outside <;> by_cases hlt : q.2.lt <;>
        simp [hr, hloc, hlt]
  · have h0 : e.2 = 0 := le_antisymm (not_lt.mp h1) h
    simp [h1, h0]

/-- A single entry with non-negative count contributes to insideWeight
exactly its count times its resolved weight when its key is inside, and
nothing otherwise. -/
lemma scoreStep_snd (dd : DefectData) (e : ObsKey × Int) (h : 0 ≤ e.2) :
    (scoreStep dd (0, 0, []) e).2.1 =
      if e.1.location = Location.inside then Spec.obsWeight dd e.1 * (e.2 : ℚ) else 0 := by
  unfold scoreStep Spec.obsWeight
  by_cases h1 : 0 < e.2
  · simp only [if_pos h1]
    cases hr : resolveItemDefect dd e.1 with
    | none => simp [hr]
    | some q =>
      cases hloc : e.1.location <;> by_cases hlt : q.2.lt <;>
        simp [hr, hloc, hlt, inside_ne_outside, outside_ne_inside]
  · have h0 : e.2 = 0 := le_antisymm (not_lt.mp h1) h
    simp [h1, h0]

/-- For a ledger of non-negative counts, the outsideWeight accumulated by
the score computation is the spec's commonDeductionPoints. -/
lemma outsideWeightOf_eq_spec (dd : DefectData) (entries : List (ObsKey × Int))
    (h : ∀ e ∈ entries, 0 ≤ e.2) :
    outsideWeightOf dd entries = Spec.commonDeductionPoints dd entries := by
  induction entries with
  | nil => rfl
  | cons e es ih =>
    have he : 0 ≤ e.2 := h e (List.mem_cons_self e es)
    have hes : ∀ x ∈ es, 0 ≤ x.2 := fun x hx => h x (List.mem_cons_of_mem e hx)
    unfold Spec.commonDeductionPoints
    rw [outsideWeightOf_cons, scoreStep_fst dd e he, List.map_cons, List.sum_cons, ih hes]
    rfl

/-- For a ledger of non-negative counts, the insideWeight accumulated by
the score computation is the spec's totalUnitDeductionPoints. -/
lemma insideWeightOf_eq_spec (dd : DefectData) (entries : List (ObsKey × Int))
    (h : ∀ e ∈ entries, 0 ≤ e.2) :
    insideWeightOf dd entries = Spec.totalUnitDeductionPoints dd entries := by
  induction entries with
  | nil => rfl
  | cons e es ih =>
    have he : 0 ≤ e.2 := h e (List.mem_cons_self e es)
    have hes : ∀ x ∈ es, 0 ≤ x.2 := fun x hx => h x (List.mem_cons_of_mem e hx)
    unfold Spec.totalUnitDeductionPoints
    rw [insideWeightOf_cons, scoreStep_snd dd e he, List.map_cons, List.sum_cons, ih hes]
    rfl

lemma computeScore_finalScore (dd : DefectData) (entries : List (ObsKey × Int))
    (tu ss : Int) :
    (computeScore dd entries tu ss).finalScore =
      max 0 (100 - (outsideWeightOf dd entries + unitWeightOf dd entries tu ss)) := rfl

lemma computeScore_failing (dd : DefectData) (entries : List (ObsKey × Int))
    (tu ss : Int) :
    (computeScore dd entries tu ss).failing =
      (decide ((computeScore dd entries tu ss).finalScore < 60) ||
       decide (30 ≤ unitWeightOf dd entries tu ss) ||
       decide (40 ≤ outsideWeightOf dd entries) ||
       decide (0 < (ltFindingsOf dd entries).length)) := rfl

lemma computeScore_lts (dd : DefectData) (entries : List (ObsKey × Int))
    (tu ss : Int) :
    (computeScore dd entries tu ss).lifeThreateningDefects = ltFindingsOf dd entries := rfl

/-- With a positive sample size and unit count, the unitWeight of the score
computation is exactly the spec's extrapolated interior deduction, for a
ledger of non-negative counts. -/
lemma unitWeightOf_eq_spec (dd : DefectData) (entries : List (ObsKey × Int))
    (tu ss : Int) (hss : 1 ≤ ss) (htu : 1 ≤ tu)
    (hcount : ∀ e ∈ entries, 0 ≤ e.2) :
    unitWeightOf dd entries tu ss = Spec.extrapolatedInteriorDeduction dd entries tu ss := by
  unfold unitWeightOf Spec.extrapolatedInteriorDeduction
  rw [insideWeightOf_eq_spec dd entries hcount,
    if_pos (by omega : (0 : Int) < ss), if_pos (by omega : (0 : Int) < tu)]

/-- A ledger holding a positively counted entry that resolves to a
life-threatening defect yields a non-empty finding list. -/
lemma ltFindingsOf_ne_nil (dd : DefectData) (entries : List (ObsKey × Int))
    (k : ObsKey) (c : Int) (it : Item) (d : Defect)
    (hmem : (k, c) ∈ entries) (hc : 0 < c)
    (hres : resolveItemDefect dd k = some (it, d)) (hlt : d.lt = true) :
    ltFindingsOf dd entries ≠ [] := by
  revert hmem
  induction entries with
  | nil =>
    intro hmem
    simp at hmem
  | cons e es ih =>
    intro hmem
    rw [ltFindingsOf_cons]
    rcases List.mem_cons.mp hmem with heq | hmem2
    · have hstep : (scoreStep dd (0, 0, []) (k, c)).2.2 = [ltString it d c] := by
        unfold scoreStep
        by_cases hloc : k.location = Location.outside <;> simp [hc, hres, hlt, hloc]
      rw [← heq, hstep]
      simp
    · intro hcon
      exact ih hmem2 (List.append_eq_nil.mp hcon).2

end Part000

section Claims

open Part000

/-- Claim C1: for every inspection with sampleSize at least 1 and totalUnits
at least 1 and every ledger of observations with non-negative counts and
non-negative weights, the scoring computation returns finalScore equal to
max(0, 100 - commonDeductionPoints - extrapolatedInteriorDeduction), where
commonDeductionPoints sums count times weight over common-scope observations,
totalUnitDeductionPoints sums count times weight over unit-scope
observations, and extrapolatedInteriorDeduction is totalUnitDeductionPoints
divided by sampleSize times totalUnits; in particular, with sampleSize 10,
totalUnits 100 and a single unit-scope observation of weight 2.50 and count
1, the final score is 75.00. -/
theorem score_finalScore_matches_spec_formula (dd : DefectData)
    (entries : List (ObsKey × Int)) (tu ss : Int)
    (hss : 1 ≤ ss) (htu : 1 ≤ tu)
    (hcount : ∀ e ∈ entries, 0 ≤ e.2)
    (_hres : ∀ e ∈ entries, (resolveItemDefect dd e.1).isSome = true)
    (_hw : ∀ e ∈ entries, 0 ≤ Spec.obsWeight dd e.1) :
    (computeScore dd entries tu ss).finalScore =
      max 0 (100 - Spec.commonDeductionPoints dd entries -
        Spec.extrapolatedInteriorDeduction dd entries tu ss) ∧
    (computeScore scenarioCatalog [(scenarioKey, 1)] 100 10).finalScore = 75 := by
  constructor
  · rw [computeScore_finalScore, outsideWeightOf_eq_spec dd entries hcount,
      unitWeightOf_eq_spec dd entries tu ss hss htu hcount, sub_sub]
  · norm_num [computeScore, outsideWeightOf, insideWeightOf, unitWeightOf, ltFindingsOf,
      scoreFold, scoreStep, resolveItemDefect, scenarioCatalog, scenarioKey, Item.defectsAt,
      inside_ne_outside, scenarioWeight_eq]

/-- Witness for C1 at Scenario B: sampleSize 10, totalUnits 100, one
unit-scope observation of weight 2.50 with count 1. -/
theorem score_finalScore_matches_spec_formula_witness :
    (1 : Int) ≤ 10 ∧ (1 : Int) ≤ 100 ∧
    (∀ e ∈ [(scenarioKey, (1 : Int))], 0 ≤ e.2) ∧
    (∀ e ∈ [(scenarioKey, (1 : Int))],
      (resolveItemDefect scenarioCatalog e.1).isSome = true) ∧
    (∀ e ∈ [(scenarioKey, (1 : Int))], 0 ≤ Spec.obsWeight scenarioCatalog e.1) ∧
    ((computeScore scenarioCatalog [(scenarioKey, 1)] 100 10).finalScore =
      max 0 (100 - Spec.commonDeductionPoints scenarioCatalog [(scenarioKey, 1)] -
        Spec.extrapolatedInteriorDeduction scenarioCatalog [(scenarioKey, 1)] 100 10) ∧
     (computeScore scenarioCatalog [(scenarioKey, 1)] 100 10).finalScore = 75) :=
  ⟨by decide, by decide, by decide, by decide, by decide,
    score_finalScore_matches_spec_formula scenarioCatalog [(scenarioKey, 1)] 100 10
      (by decide) (by decide) (by decide) (by decide) (by decide)⟩

/-- Claim C2: for every scored inspection, the failing flag is set if and
only if at least one of the four triggers holds (finalScore below 60,
extrapolated interior deduction at least 30, common deduction points at
least 40, or a non-empty critical-findings list); each trigger is an
independent failure cause, in particular common deduction points of at
least 40 alone force failure. -/
theorem score_fail_iff_any_trigger (dd : DefectData)
    (entries : List (ObsKey × Int)) (tu ss : Int)
    (hss : 1 ≤ ss) (htu : 1 ≤ tu)
    (hcount : ∀ e ∈ entries, 0 ≤ e.2)
    (_hres : ∀ e ∈ entries, (resolveItemDefect dd e.1).isSome = true) :
    ((computeScore dd entries tu ss).failing = true ↔
      ((computeScore dd entries tu ss).finalScore < 60 ∨
       30 ≤ Spec.extrapolatedInteriorDeduction dd entries tu ss ∨
       40 ≤ Spec.commonDeductionPoints dd entries ∨
       (computeScore dd entries tu ss).lifeThreateningDefects ≠ [])) ∧
    (40 ≤ Spec.commonDeductionPoints dd entries →
      (computeScore dd entries tu ss).failing = true) := by
  have hiff : (computeScore dd entries tu ss).failing = true ↔
      ((computeScore dd entries tu ss).finalScore < 60 ∨
       30 ≤ Spec.extrapolatedInteriorDeduction dd entries tu ss ∨
       40 ≤ Spec.commonDeductionPoints dd entries ∨
       (computeScore dd entries tu ss).lifeThreateningDefects ≠ []) := by
    rw [computeScore_failing, computeScore_lts,
      outsideWeightOf_eq_spec dd entries hcount,
      unitWeightOf_eq_spec dd entries tu ss hss htu hcount]
    simp [List.length_pos, or_assoc]
  exact ⟨hiff, fun h => hiff.mpr (Or.inr (Or.inr (Or.inl h)))⟩

/-- Witness for C2 at Scenario B's input. -/
theorem score_fail_iff_any_trigger_witness :
    (1 : Int) ≤ 10 ∧ (1 : Int) ≤ 100 ∧
    (∀ e ∈ [(scenarioKey, (1 : Int))], 0 ≤ e.2) ∧
    (∀ e ∈ [(scenarioKey, (1 : Int))],
      (resolveItemDefect scenarioCatalog e.1).isSome = true) ∧
    (((computeScore scenarioCatalog [(scenarioKey, 1)] 100 10).failing = true ↔
      ((computeScore scenarioCatalog [(scenarioKey, 1)] 100 10).finalScore < 60 ∨
       30 ≤ Spec.extrapolatedInteriorDeduction scenarioCatalog [(scenarioKey, 1)] 100 10 ∨
       40 ≤ Spec.commonDeductionPoints scenarioCatalog [(scenarioKey, 1)] ∨
       (computeScore scenarioCatalog [(scenarioKey, 1)] 100 10).lifeThreateningDefects ≠ [])) ∧
     (40 ≤ Spec.commonDeductionPoints scenarioCatalog [(scenarioKey, 1)] →
       (computeScore scenarioCatalog [(scenarioKey, 1)] 100 10).failing = true)) :=
  ⟨by decide, by decide, by decide, by decide,
    score_fail_iff_any_trigger scenarioCatalog [(scenarioKey, 1)] 100 10
      (by decide) (by decide) (by decide) (by decide)⟩

/-- Claim C3: any ledger containing an observation with positive count that
resolves to a life-threatening defect makes the score computation fail,
regardless of the numeric score; likewise the App-variant score in index.tsx
returns pass = false whenever a stored defect has the lt flag and positive
count. -/
theorem lifeThreatening_defect_forces_fail (dd : DefectData)
    (entries : List (ObsKey × Int)) (tu ss : Int)
    (k : ObsKey) (c : Int) (it : Item) (d : Defect)
    (hmem : (k, c) ∈ entries) (hc : 0 < c)
    (hres : resolveItemDefect dd k = some (it, d)) (hlt : d.lt = true)
    (ds : List IndexTsx.AppDefect) (ad : IndexTsx.AppDefect)
    (hads : ad ∈ ds) (hadlt : ad.lt = true) (hadc : 0 < ad.count) :
    (computeScore dd entries tu ss).failing = true ∧
    (IndexTsx.appScore ds).pass = false := by
  constructor
  · rw [computeScore_failing]
    have hne := ltFindingsOf_ne_nil dd entries k c it d hmem hc hres hlt
    have hlen : decide (0 < (ltFindingsOf dd entries).length) = true := by
      simp [List.length_pos, hne]
    simp [hlen]
  · have hmemf : ad ∈ ds.filter (fun d => d.lt && decide (0 < d.count)) := by
      simp [List.mem_filter, hads, hadlt, hadc]
    have hpos : 0 < (ds.filter (fun d => d.lt && decide (0 < d.count))).length :=
      List.length_pos_of_mem hmemf
    unfold IndexTsx.appScore
    simp [hpos.ne']

/-- Witness for C3 at Scenario C: the scenario defect flagged
life-threatening, recorded once, plus an lt defect in the App-variant
state. -/
theorem lifeThreatening_defect_forces_fail_witness :
    (scenarioKey, (1 : Int)) ∈ [(scenarioKey, (1 : Int))] ∧ (0 : Int) < 1 ∧
    resolveItemDefect scenarioLtCatalog scenarioKey = some (scenarioLtItem, scenarioLtDefect) ∧
    scenarioLtDefect.lt = true ∧ appLtDefect ∈ [appLtDefect] ∧
    appLtDefect.lt = true ∧ (0 : Int) < appLtDefect.count ∧
    ((computeScore scenarioLtCatalog [(scenarioKey, 1)] 100 10).failing = true ∧
     (IndexTsx.appScore [appLtDefect]).pass = false) :=
  ⟨by decide, by decide, by decide, by decide, by decide, by decide, by decide,
    lifeThreatening_defect_forces_fail scenarioLtCatalog [(scenarioKey, 1)] 100 10
      scenarioKey 1 scenarioLtItem scenarioLtDefect
      (by decide) (by decide) (by decide) (by decide)
      [appLtDefect] appLtDefect
      (by decide) (by decide) (by decide)⟩

/-- Claim C4 counterexample: an observation whose key does not resolve in
the catalog (its category index is out of range) does not make the scoring
computation fail; the computation returns the same score as if the
observation were absent, so its weight is silently treated as zero and a
final score of 100 is still produced. -/
theorem dangling_reference_counterexample :
    computeScore scenarioCatalog [(danglingKey, 1)] 100 10 =
      computeScore scenarioCatalog [] 100 10 ∧
    (computeScore scenarioCatalog [(danglingKey, 1)] 100 10).finalScore = 100 := by
  constructor <;>
    norm_num [computeScore, outsideWeightOf, insideWeightOf, unitWeightOf, ltFindingsOf,
      scoreFold, scoreStep, resolveItemDefect, scenarioCatalog, danglingKey, Item.defectsAt]

/-- Claim C4 amended: an observation whose key does not resolve in the
current catalog is silently skipped by the scoring computation - it
contributes no weight and no finding, and a numeric score is still
returned, identical to the score of the ledger without that observation. -/
theorem dangling_reference_skipped (dd : DefectData) (k : ObsKey) (c : Int)
    (entries : List (ObsKey × Int)) (tu ss : Int)
    (h : resolveItemDefect dd k = none) :
    computeScore dd ((k, c) :: entries) tu ss = computeScore dd entries tu ss := by
  have hstep : scoreStep dd (0, 0, []) (k, c) = (0, 0, []) := by
    unfold scoreStep
    simp [h]
  have hfold : scoreFold dd ((k, c) :: entries) = scoreFold dd entries := by
    rw [scoreFold_cons, hstep]
    simp
  unfold computeScore outsideWeightOf unitWeightOf insideWeightOf ltFindingsOf
  rw [hfold]

/-- Witness for the amended C4 at the dangling fixture key. -/
theorem dangling_reference_skipped_witness :
    resolveItemDefect scenarioCatalog danglingKey = none ∧
    computeScore scenarioCatalog [(danglingKey, 1)] 100 10 =
      computeScore scenarioCatalog [] 100 10 :=
  ⟨by decide,
    dangling_reference_skipped scenarioCatalog danglingKey 1 [] 100 10 (by decide)⟩

/-- Claim C5 counterexample: both calculateSampleSize variants return 0 for
a population of 0, silently and without any error. -/
theorem sampleSize_zero_counterexample :
    IndexTsx.calculateSampleSize 0 = 0 ∧ Part000.calculateSampleSize 0 = 0 := by decide

/-- Claim C5 amended: for every totalUnits at most 0, both
calculateSampleSize variants silently return 0 (no error is raised), and
the unguarded getSampleSize variant even returns 2 for a population of 0. -/
theorem sampleSize_nonpositive_returns_zero (n : Int) (h : n ≤ 0) :
    IndexTsx.calculateSampleSize n = 0 ∧ Part000.calculateSampleSize n = 0 ∧
    IndexTsx.getSampleSize 0 = 2 := by
  refine ⟨?_, ?_, by decide⟩
  · unfold IndexTsx.calculateSampleSize
    rw [if_pos h]
  · unfold Part000.calculateSampleSize
    rw [if_pos h]

/-- Witness for the amended C5 at population 0. -/
theorem sampleSize_nonpositive_returns_zero_witness :
    (0 : Int) ≤ 0 ∧
    (IndexTsx.calculateSampleSize 0 = 0 ∧ Part000.calculateSampleSize 0 = 0 ∧
     IndexTsx.getSampleSize 0 = 2) :=
  ⟨by decide, sampleSize_nonpositive_returns_zero 0 (by decide)⟩

/-- Claim C6 counterexample: a sample size of 0 reaching the extrapolation
step does not make the computation fail; the score computation divides by
the defensive divisor 1 and returns a numeric score (here 0, since the
single 2.50-point unit defect is scaled by 100 units), and the reacScore
variant skips the deduction and returns 100. -/
theorem zero_sample_counterexample :
    (computeScore scenarioCatalog [(scenarioKey, 1)] 100 0).finalScore = 0 ∧
    (IndexTsx.reacScoreCalc [{ weight := 1, area := "unit" }] 0).reacScore = 100 := by
  constructor
  · norm_num [computeScore, outsideWeightOf, insideWeightOf, unitWeightOf, ltFindingsOf,
      scoreFold, scoreStep, resolveItemDefect, scenarioCatalog, scenarioKey, Item.defectsAt,
      inside_ne_outside, scenarioWeight_eq]
  · norm_num [IndexTsx.reacScoreCalc]

/-- Claim C6 amended: when sampleSize = 0 reaches the extrapolation step,
the score computation substitutes the defensive divisor 1 (so it behaves
exactly as with sampleSize = 1) and returns a numeric score; the reacScore
variant substitutes a deduction of 0 and returns a score of 100.  No error
is raised in either variant. -/
theorem zero_sample_defensive_divisor (dd : DefectData) (entries : List (ObsKey × Int))
    (tu : Int) (ds : List IndexTsx.ReacDefect) :
    computeScore dd entries tu 0 = computeScore dd entries tu 1 ∧
    (IndexTsx.reacScoreCalc ds 0).reacScore = 100 := by
  constructor
  · unfold computeScore unitWeightOf
    norm_num
  · unfold IndexTsx.reacScoreCalc
    norm_num

lemma p000_eval_one : Part000.calculateSampleSize 1 = 1 := by
  unfold Part000.calculateSampleSize
  rw [if_neg (show ¬(1 : Int) ≤ 0 by omega), if_pos rfl]

lemma p000_eval_2 (n : Int) (h1 : 2 ≤ n) (h2 : n ≤ 10) : Part000.calculateSampleSize n = min n 4 := by
  unfold Part000.calculateSampleSize
  rw [if_neg (show ¬n ≤ 0 by omega), if_neg (show ¬n = 1 by omega),
    if_pos (show n ≤ 10 by omega)]

lemma p000_eval_11 (n : Int) (h1 : 11 ≤ n) (h2 : n ≤ 20) : Part000.calculateSampleSize n = 6 := by
  unfold Part000.calculateSampleSize
  rw [if_neg (show ¬n ≤ 0 by omega), if_neg (show ¬n = 1 by omega),
    if_neg (show ¬n ≤ 10 by omega), if_pos (show n ≤ 20 by omega)]

lemma p000_eval_21 (n : Int) (h1 : 21 ≤ n) (h2 : n ≤ 30) : Part000.calculateSampleSize n = 7 := by
  unfold Part000.calculateSampleSize
  rw [if_neg (show ¬n ≤ 0 by omega), if_neg (show ¬n = 1 by omega),
    if_neg (show ¬n ≤ 10 by omega), if_neg (show ¬n ≤ 20 by omega),
    if_pos (show n ≤ 30 by omega)]

lemma p000_eval_31 (n : Int) (h1 : 31 ≤ n) (h2 : n ≤ 40) : Part000.calculateSampleSize n = 8 := by
  unfold Part000.calculateSampleSize
  rw [if_neg (show ¬n ≤ 0 by omega), if_neg (show ¬n = 1 by omega),
    if_neg (show ¬n ≤ 10 by omega), if_neg (show ¬n ≤ 20 by omega),
    if_neg (show ¬n ≤ 30 by omega), if_pos (show n ≤ 40 by omega)]

lemma p000_eval_41 (n : Int) (h1 : 41 ≤ n) (h2 : n ≤ 50) : Part000.calculateSampleSize n = 9 := by
  unfold Part000.calculateSampleSize
  rw [if_neg (show ¬n ≤ 0 by omega), if_neg (show ¬n = 1 by omega),
    if_neg (show ¬n ≤ 10 by omega), if_neg (show ¬n ≤ 20 by omega),
    if_neg (show ¬n ≤ 30 by omega), if_neg (show ¬n ≤ 40 by omega),
    if_pos (show n ≤ 50 by omega)]

lemma p000_eval_51 (n : Int) (h1 : 51 ≤ n) (h2 : n ≤ 60) : Part000.calculateSampleSize n = 10 := by
  unfold Part000.calculateSampleSize
  rw [if_neg (show ¬n ≤ 0 by omega), if_neg (show ¬n = 1 by omega),
    if_neg (show ¬n ≤ 10 by omega), if_neg (show ¬n ≤ 20 by omega),
    if_neg (show ¬n ≤ 30 by omega), if_neg (show ¬n ≤ 40 by omega),
    if_neg (show ¬n ≤ 50 by omega), if_pos (show n ≤ 60 by omega)]

lemma p000_eval_61 (n : Int) (h1 : 61 ≤ n) (h2 : n ≤ 70) : Part000.calculateSampleSize n = 11 := by
  unfold Part000.calculateSampleSize
  rw [if_neg (show ¬n ≤ 0 by omega), if_neg (show ¬n = 1 by omega),
    if_neg (show ¬n ≤ 10 by omega), if_neg (show ¬n ≤ 20 by omega),
    if_neg (show ¬n ≤ 30 by omega), if_neg (show ¬n ≤ 40 by omega),
    if_neg (show ¬n ≤ 50 by omega), if_neg (show ¬n ≤ 60 by omega),
    if_pos (show n ≤ 70 by omega)]

lemma p000_eval_71 (n : Int) (h1 : 71 ≤ n) (h2 : n ≤ 80) : Part000.calculateSampleSize n = 12 := by
  unfold Part000.calculateSampleSize
  rw [if_neg (show ¬n ≤ 0 by omega), if_neg (show ¬n = 1 by omega),
    if_neg (show ¬n ≤ 10 by omega), if_neg (show ¬n ≤ 20 by omega),
    if_neg (show ¬n ≤ 30 by omega), if_neg (show ¬n ≤ 40 by omega),
    if_neg (show ¬n ≤ 50 by omega), if_neg (show ¬n ≤ 60 by omega),
    if_neg (show ¬n ≤ 70 by omega), if_pos (show n ≤ 80 by omega)]

lemma p000_eval_81 (n : Int) (h1 : 81 ≤ n) (h2 : n ≤ 90) : Part000.calculateSampleSize n = 13 := by
  unfold Part000.calculateSampleSize
  rw [if_neg (show ¬n ≤ 0 by omega), if_neg (show ¬n = 1 by omega),
    if_neg (show ¬n ≤ 10 by omega), if_neg (show ¬n ≤ 20 by omega),
    if_neg (show ¬n ≤ 30 by omega), if_neg (show ¬n ≤ 40 by omega),
    if_neg (show ¬n ≤ 50 by omega), if_neg (show ¬n ≤ 60 by omega),
    if_neg (show ¬n ≤ 70 by omega), if_neg (show ¬n ≤ 80 by omega),
    if_pos (show n ≤ 90 by omega)]

lemma p000_eval_91 (n : Int) (h1 : 91 ≤ n) (h2 : n ≤ 100) : Part000.calculateSampleSize n = 14 := by
  unfold Part000.calculateSampleSize
  rw [if_neg (show ¬n ≤ 0 by omega), if_neg (show ¬n = 1 by omega),
    if_neg (show ¬n ≤ 10 by omega), if_neg (show ¬n ≤ 20 by omega),
    if_neg (show ¬n ≤ 30 by omega), if_neg (show ¬n ≤ 40 by omega),
    if_neg (show ¬n ≤ 50 by omega), if_neg (show ¬n ≤ 60 by omega),
    if_neg (show ¬n ≤ 70 by omega), if_neg (show ¬n ≤ 80 by omega),
    if_neg (show ¬n ≤ 90 by omega), if_pos (show n ≤ 100 by omega)]

lemma p000_eval_101 (n : Int) (h1 : 101 ≤ n) (h2 : n ≤ 200) : Part000.calculateSampleSize n = 17 := by
  unfold Part000.calculateSampleSize
  rw [if_neg (show ¬n ≤ 0 by omega), if_neg (show ¬n = 1 by omega),
    if_neg (show ¬n ≤ 10 by omega), if_neg (show ¬n ≤ 20 by omega),
    if_neg (show ¬n ≤ 30 by omega), if_neg (show ¬n ≤ 40 by omega),
    if_neg (show ¬n ≤ 50 by omega), if_neg (show ¬n ≤ 60 by omega),
    if_neg (show ¬n ≤ 70 by omega), if_neg (show ¬n ≤ 80 by omega),
    if_neg (show ¬n ≤ 90 by omega), if_neg (show ¬n ≤ 100 by omega),
    if_pos (show n ≤ 200 by omega)]

lemma p000_eval_201 (n : Int) (h1 : 201 ≤ n) (h2 : n ≤ 300) : Part000.calculateSampleSize n = 19 := by
  unfold Part000.calculateSampleSize
  rw [if_neg (show ¬n ≤ 0 by omega), if_neg (show ¬n = 1 by omega),
    if_neg (show ¬n ≤ 10 by omega), if_neg (show ¬n ≤ 20 by omega),
    if_neg (show ¬n ≤ 30 by omega), if_neg (show ¬n ≤ 40 by omega),
    if_neg (show ¬n ≤ 50 by omega), if_neg (show ¬n ≤ 60 by omega),
    if_neg (show ¬n ≤ 70 by omega), if_neg (show ¬n ≤ 80 by omega),
    if_neg (show ¬n ≤ 90 by omega), if_neg (show ¬n ≤ 100 by omega),
    if_neg (show ¬n ≤ 200 by omega), if_pos (show n ≤ 300 by omega)]

lemma p000_eval_301 (n : Int) (h1 : 301 ≤ n) (h2 : n ≤ 400) : Part000.calculateSampleSize n = 20 := by
  unfold Part000.calculateSampleSize
  rw [if_neg (show ¬n ≤ 0 by omega), if_neg (show ¬n = 1 by omega),
    if_neg (show ¬n ≤ 10 by omega), if_neg (show ¬n ≤ 20 by omega),
    if_neg (show ¬n ≤ 30 by omega), if_neg (show ¬n ≤ 40 by omega),
    if_neg (show ¬n ≤ 50 by omega), if_neg (show ¬n ≤ 60 by omega),
    if_neg (show ¬n ≤ 70 by omega), if_neg (show ¬n ≤ 80 by omega),
    if_neg (show ¬n ≤ 90 by omega), if_neg (show ¬n ≤ 100 by omega),
    if_neg (show ¬n ≤ 200 by omega), if_neg (show ¬n ≤ 300 by omega),
    if_pos (show n ≤ 400 by omega)]

lemma p000_eval_401 (n : Int) (h1 : 401 ≤ n) (h2 : n ≤ 500) : Part000.calculateSampleSize n = 21 := by
  unfold Part000.calculateSampleSize
  rw [if_neg (show ¬n ≤ 0 by omega), if_neg (show ¬n = 1 by omega),
    if_neg (show ¬n ≤ 10 by omega), if_neg (show ¬n ≤ 20 by omega),
    if_neg (show ¬n ≤ 30 by omega), if_neg (show ¬n ≤ 40 by omega),
    if_neg (show ¬n ≤ 50 by omega), if_neg (show ¬n ≤ 60 by omega),
    if_neg (show ¬n ≤ 70 by omega), if_neg (show ¬n ≤ 80 by omega),
    if_neg (show ¬n ≤ 90 by omega), if_neg (show ¬n ≤ 100 by omega),
    if_neg (show ¬n ≤ 200 by omega), if_neg (show ¬n ≤ 300 by omega),
    if_neg (show ¬n ≤ 400 by omega), if_pos (show n ≤ 500 by omega)]

lemma p000_eval_501 (n : Int) (h1 : 501 ≤ n) : Part000.calculateSampleSize n = 23 := by
  unfold Part000.calculateSampleSize
  rw [if_neg (show ¬n ≤ 0 by omega), if_neg (show ¬n = 1 by omega),
    if_neg (show ¬n ≤ 10 by omega), if_neg (show ¬n ≤ 20 by omega),
    if_neg (show ¬n ≤ 30 by omega), if_neg (show ¬n ≤ 40 by omega),
    if_neg (show ¬n ≤ 50 by omega), if_neg (show ¬n ≤ 60 by omega),
    if_neg (show ¬n ≤ 70 by omega), if_neg (show ¬n ≤ 80 by omega),
    if_neg (show ¬n ≤ 90 by omega), if_neg (show ¬n ≤ 100 by omega),
    if_neg (show ¬n ≤ 200 by omega), if_neg (show ¬n ≤ 300 by omega),
    if_neg (show ¬n ≤ 400 by omega), if_neg (show ¬n ≤ 500 by omega)]

lemma idx_eval_one : IndexTsx.calculateSampleSize 1 = 1 := by
  unfold IndexTsx.calculateSampleSize
  rw [if_neg (show ¬(1 : Int) ≤ 0 by omega), if_pos rfl]

lemma idx_eval_2 (n : Int) (h1 : 2 ≤ n) (h2 : n ≤ 8) : IndexTsx.calculateSampleSize n = 2 := by
  unfold IndexTsx.calculateSampleSize
  rw [if_neg (show ¬n ≤ 0 by omega), if_neg (show ¬n = 1 by omega),
    if_pos (show 2 ≤ n ∧ n ≤ 8 by omega)]

lemma idx_eval_9 (n : Int) (h1 : 9 ≤ n) (h2 : n ≤ 15) : IndexTsx.calculateSampleSize n = 3 := by
  unfold IndexTsx.calculateSampleSize
  rw [if_neg (show ¬n ≤ 0 by omega), if_neg (show ¬n = 1 by omega),
    if_neg (show ¬(2 ≤ n ∧ n ≤ 8) by omega), if_pos (show 9 ≤ n ∧ n ≤ 15 by omega)]

lemma idx_eval_16 (n : Int) (h1 : 16 ≤ n) (h2 : n ≤ 25) : IndexTsx.calculateSampleSize n = 4 := by
  unfold IndexTsx.calculateSampleSize
  rw [if_neg (show ¬n ≤ 0 by omega), if_neg (show ¬n = 1 by omega),
    if_neg (show ¬(2 ≤ n ∧ n ≤ 8) by omega), if_neg (show ¬(9 ≤ n ∧ n ≤ 15) by omega),
    if_pos (show 16 ≤ n ∧ n ≤ 25 by omega)]

lemma idx_eval_26 (n : Int) (h1 : 26 ≤ n) (h2 : n ≤ 40) : IndexTsx.calculateSampleSize n = 5 := by
  unfold IndexTsx.calculateSampleSize
  rw [if_neg (show ¬n ≤ 0 by omega), if_neg (show ¬n = 1 by omega),
    if_neg (show ¬(2 ≤ n ∧ n ≤ 8) by omega), if_neg (show ¬(9 ≤ n ∧ n ≤ 15) by omega),
    if_neg (show ¬(16 ≤ n ∧ n ≤ 25) by omega), if_pos (show 26 ≤ n ∧ n ≤ 40 by omega)]

lemma idx_eval_41 (n : Int) (h1 : 41 ≤ n) (h2 : n ≤ 65) : IndexTsx.calculateSampleSize n = 6 := by
  unfold IndexTsx.calculateSampleSize
  rw [if_neg (show ¬n ≤ 0 by omega), if_neg (show ¬n = 1 by omega),
    if_neg (show ¬(2 ≤ n ∧ n ≤ 8) by omega), if_neg (show ¬(9 ≤ n ∧ n ≤ 15) by omega),
    if_neg (show ¬(16 ≤ n ∧ n ≤ 25) by omega), if_neg (show ¬(26 ≤ n ∧ n ≤ 40) by omega),
    if_pos (show 41 ≤ n ∧ n ≤ 65 by omega)]

lemma idx_eval_66 (n : Int) (h1 : 66 ≤ n) (h2 : n ≤ 90) : IndexTsx.calculateSampleSize n = 7 := by
  unfold IndexTsx.calculateSampleSize
  rw [if_neg (show ¬n ≤ 0 by omega), if_neg (show ¬n = 1 by omega),
    if_neg (show ¬(2 ≤ n ∧ n ≤ 8) by omega), if_neg (show ¬(9 ≤ n ∧ n ≤ 15) by omega),
    if_neg (show ¬(16 ≤ n ∧ n ≤ 25) by omega), if_neg (show ¬(26 ≤ n ∧ n ≤ 40) by omega),
    if_neg (show ¬(41 ≤ n ∧ n ≤ 65) by omega), if_pos (show 66 ≤ n ∧ n ≤ 90 by omega)]

lemma idx_eval_91 (n : Int) (h1 : 91 ≤ n) (h2 : n ≤ 150) : IndexTsx.calculateSampleSize n = 8 := by
  unfold IndexTsx.calculateSampleSize
  rw [if_neg (show ¬n ≤ 0 by omega), if_neg (show ¬n = 1 by omega),
    if_neg (show ¬(2 ≤ n ∧ n ≤ 8) by omega), if_neg (show ¬(9 ≤ n ∧ n ≤ 15) by omega),
    if_neg (show ¬(16 ≤ n ∧ n ≤ 25) by omega), if_neg (show ¬(26 ≤ n ∧ n ≤ 40) by omega),
    if_neg (show ¬(41 ≤ n ∧ n ≤ 65) by omega), if_neg (show ¬(66 ≤ n ∧ n ≤ 90) by omega),
    if_pos (show 91 ≤ n ∧ n ≤ 150 by omega)]

lemma idx_eval_151 (n : Int) (h1 : 151 ≤ n) (h2 : n ≤ 280) : IndexTsx.calculateSampleSize n = 10 := by
  unfold IndexTsx.calculateSampleSize
  rw [if_neg (show ¬n ≤ 0 by omega), if_neg (show ¬n = 1 by omega),
    if_neg (show ¬(2 ≤ n ∧ n ≤ 8) by omega), if_neg (show ¬(9 ≤ n ∧ n ≤ 15) by omega),
    if_neg (show ¬(16 ≤ n ∧ n ≤ 25) by omega), if_neg (show ¬(26 ≤ n ∧ n ≤ 40) by omega),
    if_neg (show ¬(41 ≤ n ∧ n ≤ 65) by omega), if_neg (show ¬(66 ≤ n ∧ n ≤ 90) by omega),
    if_neg (show ¬(91 ≤ n ∧ n ≤ 150) by omega), if_pos (show 151 ≤ n ∧ n ≤ 280 by omega)]

lemma idx_eval_281 (n : Int) (h1 : 281 ≤ n) (h2 : n ≤ 500) : IndexTsx.calculateSampleSize n = 11 := by
  unfold IndexTsx.calculateSampleSize
  rw [if_neg (show ¬n ≤ 0 by omega), if_neg (show ¬n = 1 by omega),
    if_neg (show ¬(2 ≤ n ∧ n ≤ 8) by omega), if_neg (show ¬(9 ≤ n ∧ n ≤ 15) by omega),
    if_neg (show ¬(16 ≤ n ∧ n ≤ 25) by omega), if_neg (show ¬(26 ≤ n ∧ n ≤ 40) by omega),
    if_neg (show ¬(41 ≤ n ∧ n ≤ 65) by omega), if_neg (show ¬(66 ≤ n ∧ n ≤ 90) by omega),
    if_neg (show ¬(91 ≤ n ∧ n ≤ 150) by omega), if_neg (show ¬(151 ≤ n ∧ n ≤ 280) by omega),
    if_pos (show 281 ≤ n ∧ n ≤ 500 by omega)]

lemma idx_eval_501 (n : Int) (h1 : 501 ≤ n) (h2 : n ≤ 1200) : IndexTsx.calculateSampleSize n = 15 := by
  unfold IndexTsx.calculateSampleSize
  rw [if_neg (show ¬n ≤ 0 by omega), if_neg (show ¬n = 1 by omega),
    if_neg (show ¬(2 ≤ n ∧ n ≤ 8) by omega), if_neg (show ¬(9 ≤ n ∧ n ≤ 15) by omega),
    if_neg (show ¬(16 ≤ n ∧ n ≤ 25) by omega), if_neg (show ¬(26 ≤ n ∧ n ≤ 40) by omega),
    if_neg (show ¬(41 ≤ n ∧ n ≤ 65) by omega), if_neg (show ¬(66 ≤ n ∧ n ≤ 90) by omega),
    if_neg (show ¬(91 ≤ n ∧ n ≤ 150) by omega), if_neg (show ¬(151 ≤ n ∧ n ≤ 280) by omega),
    if_neg (show ¬(281 ≤ n ∧ n ≤ 500) by omega), if_pos (show 501 ≤ n ∧ n ≤ 1200 by omega)]

lemma idx_eval_1201 (n : Int) (h1 : 1201 ≤ n) : IndexTsx.calculateSampleSize n = 19 := by
  unfold IndexTsx.calculateSampleSize
  rw [if_neg (show ¬n ≤ 0 by omega), if_neg (show ¬n = 1 by omega),
    if_neg (show ¬(2 ≤ n ∧ n ≤ 8) by omega), if_neg (show ¬(9 ≤ n ∧ n ≤ 15) by omega),
    if_neg (show ¬(16 ≤ n ∧ n ≤ 25) by omega), if_neg (show ¬(26 ≤ n ∧ n ≤ 40) by omega),
    if_neg (show ¬(41 ≤ n ∧ n ≤ 65) by omega), if_neg (show ¬(66 ≤ n ∧ n ≤ 90) by omega),
    if_neg (show ¬(91 ≤ n ∧ n ≤ 150) by omega), if_neg (show ¬(151 ≤ n ∧ n ≤ 280) by omega),
    if_neg (show ¬(281 ≤ n ∧ n ≤ 500) by omega),
    if_neg (show ¬(501 ≤ n ∧ n ≤ 1200) by omega)]

lemma p000_bounds (n : Int) (h : 1 ≤ n) : 1 ≤ Part000.calculateSampleSize n ∧ Part000.calculateSampleSize n ≤ n := by
  rcases (by omega : n = 1 ∨ (2 ≤ n ∧ n ≤ 10) ∨ (11 ≤ n ∧ n ≤ 20) ∨ (21 ≤ n ∧ n ≤ 30) ∨ (31 ≤ n ∧ n ≤ 40) ∨ (41 ≤ n ∧ n ≤ 50) ∨ (51 ≤ n ∧ n ≤ 60) ∨ (61 ≤ n ∧ n ≤ 70) ∨ (71 ≤ n ∧ n ≤ 80) ∨ (81 ≤ n ∧ n ≤ 90) ∨ (91 ≤ n ∧ n ≤ 100) ∨ (101 ≤ n ∧ n ≤ 200) ∨ (201 ≤ n ∧ n ≤ 300) ∨ (301 ≤ n ∧ n ≤ 400) ∨ (401 ≤ n ∧ n ≤ 500) ∨ 501 ≤ n) with h | h | h | h | h | h | h | h | h | h | h | h | h | h | h | h
  · rw [h, p000_eval_one]
    omega
  · rw [p000_eval_2 n h.1 h.2]
    omega
  · rw [p000_eval_11 n h.1 h.2]
    omega
  · rw [p000_eval_21 n h.1 h.2]
    omega
  · rw [p000_eval_31 n h.1 h.2]
    omega
  · rw [p000_eval_41 n h.1 h.2]
    omega
  · rw [p000_eval_51 n h.1 h.2]
    omega
  · rw [p000_eval_61 n h.1 h.2]
    omega
  · rw [p000_eval_71 n h.1 h.2]
    omega
  · rw [p000_eval_81 n h.1 h.2]
    omega
  · rw [p000_eval_91 n h.1 h.2]
    omega
  · rw [p000_eval_101 n h.1 h.2]
    omega
  · rw [p000_eval_201 n h.1 h.2]
    omega
  · rw [p000_eval_301 n h.1 h.2]
    omega
  · rw [p000_eval_401 n h.1 h.2]
    omega
  · rw [p000_eval_501 n h]
    omega

lemma idx_bounds (n : Int) (h : 1 ≤ n) : 1 ≤ IndexTsx.calculateSampleSize n ∧ IndexTsx.calculateSampleSize n ≤ n := by
  rcases (by omega : n = 1 ∨ (2 ≤ n ∧ n ≤ 8) ∨ (9 ≤ n ∧ n ≤ 15) ∨ (16 ≤ n ∧ n ≤ 25) ∨ (26 ≤ n ∧ n ≤ 40) ∨ (41 ≤ n ∧ n ≤ 65) ∨ (66 ≤ n ∧ n ≤ 90) ∨ (91 ≤ n ∧ n ≤ 150) ∨ (151 ≤ n ∧ n ≤ 280) ∨ (281 ≤ n ∧ n ≤ 500) ∨ (501 ≤ n ∧ n ≤ 1200) ∨ 1201 ≤ n) with h | h | h | h | h | h | h | h | h | h | h | h
  · rw [h, idx_eval_one]
    omega
  · rw [idx_eval_2 n h.1 h.2]
    omega
  · rw [idx_eval_9 n h.1 h.2]
    omega
  · rw [idx_eval_16 n h.1 h.2]
    omega
  · rw [idx_eval_26 n h.1 h.2]
    omega
  · rw [idx_eval_41 n h.1 h.2]
    omega
  · rw [idx_eval_66 n h.1 h.2]
    omega
  · rw [idx_eval_91 n h.1 h.2]
    omega
  · rw [idx_eval_151 n h.1 h.2]
    omega
  · rw [idx_eval_281 n h.1 h.2]
    omega
  · rw [idx_eval_501 n h.1 h.2]
    omega
  · rw [idx_eval_1201 n h]
    omega

lemma p000_step (n : Int) (h1 : 1 ≤ n) : Part000.calculateSampleSize n ≤ Part000.calculateSampleSize (n + 1) := by
  rcases (by omega : n = 1 ∨ (2 ≤ n ∧ n ≤ 10 - 1) ∨ n = 10 ∨ (11 ≤ n ∧ n ≤ 20 - 1) ∨ n = 20 ∨ (21 ≤ n ∧ n ≤ 30 - 1) ∨ n = 30 ∨ (31 ≤ n ∧ n ≤ 40 - 1) ∨ n = 40 ∨ (41 ≤ n ∧ n ≤ 50 - 1) ∨ n = 50 ∨ (51 ≤ n ∧ n ≤ 60 - 1) ∨ n = 60 ∨ (61 ≤ n ∧ n ≤ 70 - 1) ∨ n = 70 ∨ (71 ≤ n ∧ n ≤ 80 - 1) ∨ n = 80 ∨ (81 ≤ n ∧ n ≤ 90 - 1) ∨ n = 90 ∨ (91 ≤ n ∧ n ≤ 100 - 1) ∨ n = 100 ∨ (101 ≤ n ∧ n ≤ 200 - 1) ∨ n = 200 ∨ (201 ≤ n ∧ n ≤ 300 - 1) ∨ n = 300 ∨ (301 ≤ n ∧ n ≤ 400 - 1) ∨ n = 400 ∨ (401 ≤ n ∧ n ≤ 500 - 1) ∨ n = 500 ∨ 501 ≤ n) with h | h | h | h | h | h | h | h | h | h | h | h | h | h | h | h | h | h | h | h | h | h | h | h | h | h | h | h | h | h
  · rw [h, p000_eval_one]
    rw [show (1:Int) + 1 = 2 by omega, p000_eval_2 2 (by omega) (by omega)]
    try omega
  · rw [p000_eval_2 n (by omega) (by omega), p000_eval_2 (n + 1) (by omega) (by omega)]
    try omega
  · rw [p000_eval_2 n (by omega) (by omega), p000_eval_11 (n + 1) (by omega) (by omega)]
    try omega
  · rw [p000_eval_11 n (by omega) (by omega), p000_eval_11 (n + 1) (by omega) (by omega)]
    try omega
  · rw [p000_eval_11 n (by omega) (by omega), p000_eval_21 (n + 1) (by omega) (by omega)]
    try omega
  · rw [p000_eval_21 n (by omega) (by omega), p000_eval_21 (n + 1) (by omega) (by omega)]
    try omega
  · rw [p000_eval_21 n (by omega) (by omega), p000_eval_31 (n + 1) (by omega) (by omega)]
    try omega
  · rw [p000_eval_31 n (by omega) (by omega), p000_eval_31 (n + 1) (by omega) (by omega)]
    try omega
  · rw [p000_eval_31 n (by omega) (by omega), p000_eval_41 (n + 1) (by omega) (by omega)]
    try omega
  · rw [p000_eval_41 n (by omega) (by omega), p000_eval_41 (n + 1) (by omega) (by omega)]
    try omega
  · rw [p000_eval_41 n (by omega) (by omega), p000_eval_51 (n + 1) (by omega) (by omega)]
    try omega
  · rw [p000_eval_51 n (by omega) (by omega), p000_eval_51 (n + 1) (by omega) (by omega)]
    try omega
  · rw [p000_eval_51 n (by omega) (by omega), p000_eval_61 (n + 1) (by omega) (by omega)]
    try omega
  · rw [p000_eval_61 n (by omega) (by omega), p000_eval_61 (n + 1) (by omega) (by omega)]
    try omega
  · rw [p000_eval_61 n (by omega) (by omega), p000_eval_71 (n + 1) (by omega) (by omega)]
    try omega
  · rw [p000_eval_71 n (by omega) (by omega), p000_eval_71 (n + 1) (by omega) (by omega)]
    try omega
  · rw [p000_eval_71 n (by omega) (by omega), p000_eval_81 (n + 1) (by omega) (by omega)]
    try omega
  · rw [p000_eval_81 n (by omega) (by omega), p000_eval_81 (n + 1) (by omega) (by omega)]
    try omega
  · rw [p000_eval_81 n (by omega) (by omega), p000_eval_91 (n + 1) (by omega) (by omega)]
    try omega
  · rw [p000_eval_91 n (by omega) (by omega), p000_eval_91 (n + 1) (by omega) (by omega)]
    try omega
  · rw [p000_eval_91 n (by omega) (by omega), p000_eval_101 (n + 1) (by omega) (by omega)]
    try omega
  · rw [p000_eval_101 n (by omega) (by omega), p000_eval_101 (n + 1) (by omega) (by omega)]
    try omega
  · rw [p000_eval_101 n (by omega) (by omega), p000_eval_201 (n + 1) (by omega) (by omega)]
    try omega
  · rw [p000_eval_201 n (by omega) (by omega), p000_eval_201 (n + 1) (by omega) (by omega)]
    try omega
  · rw [p000_eval_201 n (by omega) (by omega), p000_eval_301 (n + 1) (by omega) (by omega)]
    try omega
  · rw [p000_eval_301 n (by omega) (by omega), p000_eval_301 (n + 1) (by omega) (by omega)]
    try omega
  · rw [p000_eval_301 n (by omega) (by omega), p000_eval_401 (n + 1) (by omega) (by omega)]
    try omega
  · rw [p000_eval_401 n (by omega) (by omega), p000_eval_401 (n + 1) (by omega) (by omega)]
    try omega
  · rw [p000_eval_401 n (by omega) (by omega), p000_eval_501 (n + 1) (by omega)]
    try omega
  · rw [p000_eval_501 n (by omega), p000_eval_501 (n + 1) (by omega)]
    try omega

lemma idx_step (n : Int) (h1 : 1 ≤ n) : IndexTsx.calculateSampleSize n ≤ IndexTsx.calculateSampleSize (n + 1) := by
  rcases (by omega : n = 1 ∨ (2 ≤ n ∧ n ≤ 8 - 1) ∨ n = 8 ∨ (9 ≤ n ∧ n ≤ 15 - 1) ∨ n = 15 ∨ (16 ≤ n ∧ n ≤ 25 - 1) ∨ n = 25 ∨ (26 ≤ n ∧ n ≤ 40 - 1) ∨ n = 40 ∨ (41 ≤ n ∧ n ≤ 65 - 1) ∨ n = 65 ∨ (66 ≤ n ∧ n ≤ 90 - 1) ∨ n = 90 ∨ (91 ≤ n ∧ n ≤ 150 - 1) ∨ n = 150 ∨ (151 ≤ n ∧ n ≤ 280 - 1) ∨ n = 280 ∨ (281 ≤ n ∧ n ≤ 500 - 1) ∨ n = 500 ∨ (501 ≤ n ∧ n ≤ 1200 - 1) ∨ n = 1200 ∨ 1201 ≤ n) with h | h | h | h | h | h | h | h | h | h | h | h | h | h | h | h | h | h | h | h | h | h
  · rw [h, idx_eval_one]
    rw [show (1:Int) + 1 = 2 by omega, idx_eval_2 2 (by omega) (by omega)]
    try omega
  · rw [idx_eval_2 n (by omega) (by omega), idx_eval_2 (n + 1) (by omega) (by omega)]
    try omega
  · rw [idx_eval_2 n (by omega) (by omega), idx_eval_9 (n + 1) (by omega) (by omega)]
    try omega
  · rw [idx_eval_9 n (by omega) (by omega), idx_eval_9 (n + 1) (by omega) (by omega)]
    try omega
  · rw [idx_eval_9 n (by omega) (by omega), idx_eval_16 (n + 1) (by omega) (by omega)]
    try omega
  · rw [idx_eval_16 n (by omega) (by omega), idx_eval_16 (n + 1) (by omega) (by omega)]
    try omega
  · rw [idx_eval_16 n (by omega) (by omega), idx_eval_26 (n + 1) (by omega) (by omega)]
    try omega
  · rw [idx_eval_26 n (by omega) (by omega), idx_eval_26 (n + 1) (by omega) (by omega)]
    try omega
  · rw [idx_eval_26 n (by omega) (by omega), idx_eval_41 (n + 1) (by omega) (by omega)]
    try omega
  · rw [idx_eval_41 n (by omega) (by omega), idx_eval_41 (n + 1) (by omega) (by omega)]
    try omega
  · rw [idx_eval_41 n (by omega) (by omega), idx_eval_66 (n + 1) (by omega) (by omega)]
    try omega
  · rw [idx_eval_66 n (by omega) (by omega), idx_eval_66 (n + 1) (by omega) (by omega)]
    try omega
  · rw [idx_eval_66 n (by omega) (by omega), idx_eval_91 (n + 1) (by omega) (by omega)]
    try omega
  · rw [idx_eval_91 n (by omega) (by omega), idx_eval_91 (n + 1) (by omega) (by omega)]
    try omega
  · rw [idx_eval_91 n (by omega) (by omega), idx_eval_151 (n + 1) (by omega) (by omega)]
    try omega
  · rw [idx_eval_151 n (by omega) (by omega), idx_eval_151 (n + 1) (by omega) (by omega)]
    try omega
  · rw [idx_eval_151 n (by omega) (by omega), idx_eval_281 (n + 1) (by omega) (by omega)]
    try omega
  · rw [idx_eval_281 n (by omega) (by omega), idx_eval_281 (n + 1) (by omega) (by omega)]
    try omega
  · rw [idx_eval_281 n (by omega) (by omega), idx_eval_501 (n + 1) (by omega) (by omega)]
    try omega
  · rw [idx_eval_501 n (by omega) (by omega), idx_eval_501 (n + 1) (by omega) (by omega)]
    try omega
  · rw [idx_eval_501 n (by omega) (by omega), idx_eval_1201 (n + 1) (by omega)]
    try omega
  · rw [idx_eval_1201 n (by omega), idx_eval_1201 (n + 1) (by omega)]
    try omega

lemma p000_mono (a b : Int) (ha : 1 ≤ a) (hab : a ≤ b) :
    Part000.calculateSampleSize a ≤ Part000.calculateSampleSize b := by
  exact @Int.le_induction
    (fun k => Part000.calculateSampleSize a ≤ Part000.calculateSampleSize k) a
    (le_refl _) (fun n hn ih => le_trans ih (p000_step n (le_trans ha hn))) b hab

lemma idx_mono (a b : Int) (ha : 1 ≤ a) (hab : a ≤ b) :
    IndexTsx.calculateSampleSize a ≤ IndexTsx.calculateSampleSize b := by
  exact @Int.le_induction
    (fun k => IndexTsx.calculateSampleSize a ≤ IndexTsx.calculateSampleSize k) a
    (le_refl _) (fun n hn ih => le_trans ih (idx_step n (le_trans ha hn))) b hab

/-- Claim C7: both calculateSampleSize resolvers are monotonically
non-decreasing on positive populations, and for every totalUnits at least 1
the resolved sample size lies between 1 and totalUnits. -/
theorem resolver_monotone_and_bounded (a b : Int) (ha : 1 ≤ a) (hab : a ≤ b) :
    (Part000.calculateSampleSize a ≤ Part000.calculateSampleSize b ∧
     1 ≤ Part000.calculateSampleSize a ∧ Part000.calculateSampleSize a ≤ a) ∧
    (IndexTsx.calculateSampleSize a ≤ IndexTsx.calculateSampleSize b ∧
     1 ≤ IndexTsx.calculateSampleSize a ∧ IndexTsx.calculateSampleSize a ≤ a) :=
  ⟨⟨p000_mono a b ha hab, (p000_bounds a ha).1, (p000_bounds a ha).2⟩,
   ⟨idx_mono a b ha hab, (idx_bounds a ha).1, (idx_bounds a ha).2⟩⟩

/-- Witness for C7 at populations 1 and 2. -/
theorem resolver_monotone_and_bounded_witness :
    (1 : Int) ≤ 1 ∧ (1 : Int) ≤ 2 ∧
    ((Part000.calculateSampleSize 1 ≤ Part000.calculateSampleSize 2 ∧
      1 ≤ Part000.calculateSampleSize 1 ∧ Part000.calculateSampleSize 1 ≤ 1) ∧
     (IndexTsx.calculateSampleSize 1 ≤ IndexTsx.calculateSampleSize 2 ∧
      1 ≤ IndexTsx.calculateSampleSize 1 ∧ IndexTsx.calculateSampleSize 1 ≤ 1)) :=
  ⟨by decide, by decide, resolver_monotone_and_bounded 1 2 (by decide) (by decide)⟩

/-- Claim C8: updateDefectCount stores under the touched key the previous
count plus the change, clamped at zero - for any starting count c at least 0
and any integer change the resulting count is max(0, c + change), and the
update is a total function, so no error is raised; decrementing a key whose
count is 0 leaves the count 0. -/
theorem updateDefectCount_clamps (prev : ObsKey → Option Int) (key : ObsKey)
    (change c : Int) (hc : (prev key).getD 0 = c) (_hnn : 0 ≤ c) :
    (updateDefectCount prev key change key).getD 0 = max 0 (c + change) := by
  unfold updateDefectCount
  rw [if_pos rfl, Option.getD_some, hc]

/-- Witness for C8 at Scenario E: decrementing an absent key (count 0)
leaves the count at 0. -/
theorem updateDefectCount_clamps_witness :
    ((fun _ => none : ObsKey → Option Int) scenarioKey).getD 0 = 0 ∧ (0 : Int) ≤ 0 ∧
    (updateDefectCount (fun _ => none) scenarioKey (-1) scenarioKey).getD 0 =
      max 0 (0 + (-1)) :=
  ⟨rfl, by decide,
    updateDefectCount_clamps (fun _ => none) scenarioKey (-1) 0 rfl (by decide)⟩

/-- Claim C9: the score computation is a pure function of the ledger
snapshot, the unit total and the sample size - two invocations on the same
snapshot return identical records, including an identical ordering of the
lifeThreateningDefects sequence. -/
theorem score_deterministic (dd : DefectData) (e1 e2 : List (ObsKey × Int))
    (tu ss : Int) (h : e1 = e2) :
    computeScore dd e1 tu ss = computeScore dd e2 tu ss ∧
    (computeScore dd e1 tu ss).lifeThreateningDefects =
      (computeScore dd e2 tu ss).lifeThreateningDefects := by
  subst h
  exact ⟨rfl, rfl⟩

/-- Witness for C9 at the Scenario B snapshot. -/
theorem score_deterministic_witness :
    [(scenarioKey, (1 : Int))] = [(scenarioKey, (1 : Int))] ∧
    (computeScore scenarioCatalog [(scenarioKey, 1)] 100 10 =
       computeScore scenarioCatalog [(scenarioKey, 1)] 100 10 ∧
     (computeScore scenarioCatalog [(scenarioKey, 1)] 100 10).lifeThreateningDefects =
       (computeScore scenarioCatalog [(scenarioKey, 1)] 100 10).lifeThreateningDefects) :=
  ⟨rfl, score_deterministic scenarioCatalog [(scenarioKey, 1)] [(scenarioKey, 1)] 100 10 rfl⟩

/-- Claim C10: updateDefectCount changes at most the count stored at its
key - the notes object and every other key of the counts object are
untouched; symmetrically updateNoteText changes only the note entry of its
key and leaves the counts object unchanged. -/
theorem update_frame (s : LedgerState) (key q : ObsKey) (change : Int) (text : String)
    (hq : q ≠ key) :
    (updateDefectCountState s key change).notes = s.notes ∧
    (updateDefectCountState s key change).defectCounts q = s.defectCounts q ∧
    (updateNoteTextState s key text).defectCounts = s.defectCounts ∧
    (updateNoteTextState s key text).notes q = s.notes q := by
  refine ⟨rfl, ?_, rfl, ?_⟩
  · unfold updateDefectCountState updateDefectCount
    simp [hq]
  · unfold updateNoteTextState updateNoteText
    simp [hq]

/-- Witness for C10 on the empty ledgers, touching the scenario key and
observing the dangling fixture key. -/
theorem update_frame_witness :
    danglingKey ≠ scenarioKey ∧
    ((updateDefectCountState emptyLedger scenarioKey 1).notes = emptyLedger.notes ∧
     (updateDefectCountState emptyLedger scenarioKey 1).defectCounts danglingKey =
       emptyLedger.defectCounts danglingKey ∧
     (updateNoteTextState emptyLedger scenarioKey "wet wall").defectCounts =
       emptyLedger.defectCounts ∧
     (updateNoteTextState emptyLedger scenarioKey "wet wall").notes danglingKey =
       emptyLedger.notes danglingKey) :=
  ⟨by decide, update_frame emptyLedger scenarioKey danglingKey 1 "wet wall" (by decide)⟩

end Claims

